import Mathlib

/-!
Shallow embedding of `src/dipwrapper.py`, a Python wrapper for the DIP API
of the german Bundestag.  The single class `DIP` holds an api key and a
response format, validates resource types and query-parameter names against
fixed allow-lists, issues HTTP GET requests through the `requests` library,
decodes responses as JSON objects or XML element trees, and paginates with a
server-supplied cursor.

The embedding models Python values that flow through the code (`PyVal`),
XML elements as produced by `xml.etree.ElementTree` (`XmlElem`), the
exceptions the code can raise (`PyErr`), and the HTTP transport as a
deterministic function from the issued request to an outcome (`Transport`).
Generators are modelled with fuel: a run returns the list of yielded pages,
how it ended, and the trace of HTTP requests issued.
-/

/-- Python values as they appear in this program: `None`, booleans, strings,
integers, lists and dicts (a dict is a key-ordered association list; the
wrapper never builds one with a duplicated key).  This is what `json.loads`
(via `response.json()`) produces and what the query-parameter dict holds. -/
inductive PyVal where
  | none
  | bool (b : Bool)
  | str (s : String)
  | int (n : Int)
  | list (elems : List PyVal)
  | dict (fields : List (String × PyVal))
deriving Repr

/-- Python `==` on the values above: structural, false across constructors
(the program only ever compares `None` and cursor strings, where Python's
cross-type equality is plain disequality). -/
def PyVal.beq : PyVal → PyVal → Bool
  | .none, .none => true
  | .bool a, .bool b => a == b
  | .str a, .str b => a == b
  | .int a, .int b => a == b
  | .list xs, .list ys => beqList xs ys
  | .dict xs, .dict ys => beqFields xs ys
  | _, _ => false
where
  beqList : List PyVal → List PyVal → Bool
    | [], [] => true
    | x :: xs, y :: ys => x.beq y && beqList xs ys
    | _, _ => false
  beqFields : List (String × PyVal) → List (String × PyVal) → Bool
    | [], [] => true
    | (k, x) :: xs, (l, y) :: ys => k == l && x.beq y && beqFields xs ys
    | _, _ => false

instance : BEq PyVal := ⟨PyVal.beq⟩

/-- A Python dict keyed by strings, as an association list in insertion
order.  The wrapper's `params` dict is one of these. -/
abbrev PyDict := List (String × PyVal)

/-- Python `d.get(k)`: the value stored at `k`, or `None` when absent. -/
def dictGet (d : PyDict) (k : String) : PyVal :=
  match d with
  | [] => .none
  | (k', v) :: rest => if k' == k then v else dictGet rest k

/-- Python `d[k] = v`: replace the value at `k` when present (keeping its
position), append otherwise. -/
def dictSet (d : PyDict) (k : String) (v : PyVal) : PyDict :=
  match d with
  | [] => [(k, v)]
  | (k', v') :: rest =>
      if k' == k then (k', v) :: rest else (k', v') :: dictSet rest k v

/-- Python `d.update(other)`: set every key of `other` in `d`, in order. -/
def dictUpdate (d : PyDict) (other : PyDict) : PyDict :=
  match other with
  | [] => d
  | (k, v) :: rest => dictUpdate (dictSet d k v) rest

/-- The keys of a dict, in order (Python `for key in parameters`). -/
def dictKeys (d : PyDict) : List String := d.map Prod.fst

/-- An XML element as parsed by `xml.etree.ElementTree`: a tag, attributes,
an optional text content (`elem.text` is `None` for an empty element), and
the list of child elements. -/
inductive XmlElem where
  | mk (tag : String) (attrs : List (String × String)) (text : Option String)
       (children : List XmlElem)
deriving Repr

def XmlElem.tag : XmlElem → String
  | .mk t _ _ _ => t

def XmlElem.text : XmlElem → Option String
  | .mk _ _ tx _ => tx

def XmlElem.children : XmlElem → List XmlElem
  | .mk _ _ _ cs => cs

/-- `ElementTree` `elem.findall(t)`: all direct children tagged `t`. -/
def XmlElem.findall (e : XmlElem) (t : String) : List XmlElem :=
  e.children.filter (fun c => c.tag == t)

/-- `ElementTree` `elem.find(t)`: the first direct child tagged `t`, or
`None`. -/
def XmlElem.find (e : XmlElem) (t : String) : Option XmlElem :=
  e.children.find? (fun c => c.tag == t)

/-- `ElementTree` `elem.get(a)`: the attribute `a`, or `None`. -/
def XmlElem.attr (e : XmlElem) (a : String) : PyVal :=
  match e with
  | .mk _ attrs _ _ =>
      match attrs.find? (fun p => p.fst == a) with
      | Option.none => .none
      | Option.some p => .str p.snd

/-- The exceptions this program can raise, by Python class.
`requestException` covers `requests.RequestException` and its subclasses:
connection errors, timeouts, and the `HTTPError` of `raise_for_status`.
`lookupError` is Python's `LookupError` (base of `KeyError`/`IndexError`);
no path of this program raises it, it is here to state the spec's error
taxonomy.  `valueError` carries the offending token that the Python message
interpolates (`f"Invalid doctype '{resource}'. Expected one of: ..."`). -/
inductive PyErr where
  | valueError (offending : String)
  | requestException
  | decodeError
  | attributeError
  | lookupError
  | typeError
deriving Repr, DecidableEq

namespace DIP

/-- `DIP.base_url`. -/
def base_url : String := "https://search.dip.bundestag.de/api/v1"

/-- `DIP.doctypes`, exactly as the Python source evaluates it.  The source
writes `'plenarprotokoll-text'` and `'vorgang'` on adjacent lines with no
comma between them, so Python's implicit adjacent-string-literal
concatenation merges them into the single entry
`'plenarprotokoll-textvorgang'`: the list has seven elements, and neither
`'plenarprotokoll-text'` nor `'vorgang'` is one of them. -/
def doctypes : List String :=
  ["aktivitaet", "drucksache", "drucksache-text",
   "person", "plenarprotokoll",
   "plenarprotokoll-text" ++ "vorgang",
   "vorgangsposition"]

/-- `DIP.fformats` (declared in the source, never consulted). -/
def fformats : List String := ["xml", "json"]

/-- `DIP.parameters`. -/
def parameters : List String :=
  ["cursor", "format", "f.id", "f.datum.start", "f.datum.end",
   "f.drucksache", "f.plenarprotokoll", "f.vorgang",
   "f.aktivitaet", "f.zuordnung"]

end DIP

/-- The `DIP` client: `__init__` stores `apikey` and `fformat` (default
`'json'`) and does nothing else. -/
structure DIP where
  apikey : String
  fformat : String := "json"
deriving Repr, DecidableEq

/-- `DIP._validate_resource_type`: raises `ValueError` when `resource` is
not in `doctypes`. -/
def DIP.validate_resource_type (_d : DIP) (resource : String) :
    Except PyErr Unit :=
  if resource ∈ DIP.doctypes then .ok () else .error (.valueError resource)

/-- `DIP._validate_parameter_types`: iterates the keys of the given dict and
raises `ValueError` at the first key not in `parameters`.  It takes no
resource type: which parameters apply to which resource is not checked. -/
def DIP.validate_parameter_types (d : DIP) (ps : PyDict) : Except PyErr Unit :=
  match ps with
  | [] => .ok ()
  | (k, _) :: rest =>
      if k ∈ DIP.parameters then d.validate_parameter_types rest
      else .error (.valueError k)

/-- A decoded response body: what `_get_and_handle_response` returns after
`response.json()` (json mode) or `ET.fromstring(response.content)` (xml
mode). -/
inductive Decoded where
  | json (v : PyVal)
  | xml (e : XmlElem)
deriving Repr

/-- A raw response body, by what it parses as.  `jsonBody v` is a body that
`response.json()` decodes to `v`; `xmlBody e` one that `ET.fromstring`
parses to the root element `e`; `malformed` a body neither parser accepts.
(A JSON text is not well-formed XML and vice versa, so a body of the wrong
kind for the active format fails that format's parser.) -/
inductive RawBody where
  | malformed
  | jsonBody (v : PyVal)
  | xmlBody (e : XmlElem)
deriving Repr

/-- One HTTP GET as `requests.get(url, params=params, timeout=5)` issues
it. -/
structure Request where
  url : String
  params : PyDict
  timeout : Nat
deriving Repr

/-- What the transport returns for a request: a network-level failure (a
`requests` exception: connection error, timeout, ...) or a response with an
HTTP status code and a body. -/
inductive HttpOutcome where
  | netFail
  | response (status : Nat) (body : RawBody)

/-- The HTTP collaborator, as a deterministic function of the issued
request. -/
abbrev Transport := Request → HttpOutcome

/-- The pages a run yields.  json mode yields `response.get('documents')`
verbatim (any `PyVal`); xml mode yields the list `findall('document')`. -/
inductive Page where
  | jsonP (v : PyVal)
  | xmlP (docs : List XmlElem)
deriving Repr

/-- `DIP._extract_documents`.  json mode: `response.get('documents')`
(absent gives `None`; a decoded non-dict has no `.get`, so
`AttributeError`).  xml mode: `response.findall('document')`; a decoded
JSON value in that branch would lack `.findall` (`AttributeError`), though
decoding in xml mode always yields an element. -/
def DIP.extract_documents (d : DIP) (r : Decoded) : Except PyErr Page :=
  if d.fformat == "json" then
    match r with
    | .json (.dict fs) => .ok (.jsonP (dictGet fs "documents"))
    | .json _ => .error .attributeError
    | .xml _ => .error .attributeError
  else
    match r with
    | .xml e => .ok (.xmlP (e.findall "document"))
    | .json _ => .error .attributeError

/-- `DIP._extract_cursor`.  json mode: `response.get('cursor')`, giving
`None` with no error when the field is absent (a decoded non-dict has no
`.get`: `AttributeError`).  xml mode: `response.find('cursor').text`;
`find` returns `None` when no `cursor` child exists, and `None.text` raises
`AttributeError`.  (The decoded value in xml mode is always an element;
the `.json` branch there would again be an `AttributeError`.) -/
def DIP.extract_cursor (d : DIP) (r : Decoded) : Except PyErr PyVal :=
  if d.fformat == "json" then
    match r with
    | .json (.dict fs) => .ok (dictGet fs "cursor")
    | .json _ => .error .attributeError
    | .xml e => .ok (e.attr "cursor")
  else
    match r with
    | .xml e =>
        match e.find "cursor" with
        | Option.none => .error .attributeError
        | Option.some c =>
            .ok (match c.text with
                 | Option.none => .none
                 | Option.some s => .str s)
    | .json _ => .error .attributeError

/-- The body of `_get_and_handle_response` from the transport's outcome on:
a `requests` exception propagates; `raise_for_status()` raises `HTTPError`
(a `RequestException`) exactly for status codes in `[400, 600)`; then the
body is decoded per the configured format (`response.json()` in json mode,
`ET.fromstring(response.content)` otherwise; either parser raises on a
malformed body). -/
def DIP.handle_response (d : DIP) (o : HttpOutcome) : Except PyErr Decoded :=
  match o with
  | .netFail => .error .requestException
  | .response status body =>
      if 400 ≤ status ∧ status < 600 then .error .requestException
      else if d.fformat == "json" then
        match body with
        | .jsonBody v => .ok (.json v)
        | _ => .error .decodeError
      else
        match body with
        | .xmlBody e => .ok (.xml e)
        | _ => .error .decodeError

/-- `DIP._get_and_handle_response`: one `requests.get(url, params,
timeout=5)`, then `handle_response` on what the transport returned.
Returns the decoded response (or the exception) and the single request
issued. -/
def DIP.get_and_handle_response (d : DIP) (t : Transport) (url : String)
    (params : PyDict) : Except PyErr Decoded × Request :=
  let req : Request := ⟨url, params, 5⟩
  (d.handle_response (t req), req)

/-- How a (fuelled) generator run ended: the loop hit `break`; an exception
propagated; or the fuel ran out with the Python loop still running (a model
artifact: the Python loop has no bound of its own). -/
inductive RunEnd where
  | terminated
  | errored (e : PyErr)
  | outOfFuel
deriving Repr, DecidableEq

/-- A whole generator run: the pages yielded in order, how it ended, and
the HTTP requests issued in order. -/
structure RunOut where
  pages : List Page
  ending : RunEnd
  trace : List Request
deriving Repr

/-- The pagination loop of `get_resource_multiple` (and, but for the bug on
line 104, of `get_resource_all`), with fuel.  Each iteration fetches with
the current `params`, extracts the cursor, and compares it with
`params.get('cursor')`: on a difference the cursor is written into `params`
and the page is yielded; on equality the loop breaks without yielding that
response's page.  An exception anywhere ends the run. -/
def DIP.multiple_loop (d : DIP) (t : Transport) (url : String) :
    Nat → PyDict → RunOut
  | 0, _ => ⟨[], .outOfFuel, []⟩
  | fuel + 1, params =>
      match d.handle_response (t ⟨url, params, 5⟩) with
      | .error e => ⟨[], .errored e, [⟨url, params, 5⟩]⟩
      | .ok response =>
          match d.extract_cursor response with
          | .error e => ⟨[], .errored e, [⟨url, params, 5⟩]⟩
          | .ok cursor =>
              if (dictGet params "cursor") == cursor then
                ⟨[], .terminated, [⟨url, params, 5⟩]⟩
              else
                match d.extract_documents response with
                | .error e => ⟨[], .errored e, [⟨url, params, 5⟩]⟩
                | .ok page =>
                    let rest :=
                      d.multiple_loop t url fuel (dictSet params "cursor" cursor)
                    ⟨page :: rest.pages, rest.ending, ⟨url, params, 5⟩ :: rest.trace⟩

/-- The loop body of `get_resource_all` as written on lines 102-110.  Its
line 104 reads `cursor = self._extract_cursor()`: the method is called
without its `response` argument, so after any successful fetch Python
raises `TypeError` (missing 1 required positional argument) before the
cursor comparison is reached. -/
def DIP.all_loop (d : DIP) (t : Transport) (url : String) :
    Nat → PyDict → RunOut
  | 0, _ => ⟨[], .outOfFuel, []⟩
  | _ + 1, params =>
      match d.handle_response (t ⟨url, params, 5⟩) with
      | .error e => ⟨[], .errored e, [⟨url, params, 5⟩]⟩
      | .ok _response => ⟨[], .errored .typeError, [⟨url, params, 5⟩]⟩

/-- `DIP.get_resource_all(res_type)`: validate the resource type, build the
url and the base params (`format`, `apikey`), then run the pagination loop
(whose body, in this method, hits the line-104 `TypeError` after the first
successful fetch).  A `ValueError` from validation ends the run before any
request is issued. -/
def DIP.get_resource_all (d : DIP) (t : Transport) (res_type : String)
    (fuel : Nat) : RunOut :=
  match d.validate_resource_type res_type with
  | .error e => ⟨[], .errored e, []⟩
  | .ok _ =>
      let url := DIP.base_url ++ "/" ++ res_type
      let params : PyDict := [("format", .str d.fformat), ("apikey", .str d.apikey)]
      d.all_loop t url fuel params

/-- What `DIP.get_resource_id` produces: the decoded response or the
exception, and the trace of HTTP requests issued. -/
structure IdOut where
  result : Except PyErr Decoded
  trace : List Request

/-- `DIP.get_resource_id(res_type, dpi_id)`: validate the resource type,
build the url with the id as an extra path segment, fetch once, return the
decoded response directly.  No loop, no cursor. -/
def DIP.get_resource_id (d : DIP) (t : Transport) (res_type dpi_id : String) :
    IdOut :=
  match d.validate_resource_type res_type with
  | .error e => ⟨.error e, []⟩
  | .ok _ =>
      let url := DIP.base_url ++ "/" ++ res_type ++ "/" ++ dpi_id
      let params : PyDict := [("format", .str d.fformat), ("apikey", .str d.apikey)]
      let fetched := d.get_and_handle_response t url params
      ⟨fetched.1, [fetched.2]⟩

/-- `DIP.get_resource_multiple(res_type, parameters)`: validate the
resource type, build the base params and `params.update(parameters)`, then
validate the caller's parameter names, then run the pagination loop.  Both
validations happen before any request is issued. -/
def DIP.get_resource_multiple (d : DIP) (t : Transport) (res_type : String)
    (ps : PyDict) (fuel : Nat) : RunOut :=
  match d.validate_resource_type res_type with
  | .error e => ⟨[], .errored e, []⟩
  | .ok _ =>
      let url := DIP.base_url ++ "/" ++ res_type
      let params : PyDict :=
        dictUpdate [("format", .str d.fformat), ("apikey", .str d.apikey)] ps
      match d.validate_parameter_types ps with
      | .error e => ⟨[], .errored e, []⟩
      | .ok _ => d.multiple_loop t url fuel params

/-! ### Helper lemmas about the dict model -/

theorem dictGet_eq_none_of_not_mem (ps : PyDict) (k : String)
    (h : k ∉ dictKeys ps) : dictGet ps k = .none := by
  induction ps with
  | nil => rfl
  | cons p rest ih =>
      obtain ⟨k', v⟩ := p
      simp only [dictKeys, List.map_cons, List.mem_cons, not_or] at h
      simp only [dictGet]
      rw [if_neg (by simp only [beq_iff_eq]; exact fun hk => h.1 hk.symm)]
      exact ih (by simpa [dictKeys] using h.2)

theorem mem_dictKeys_dictSet (ps : PyDict) (k k' : String) (v : PyVal) :
    k' ∈ dictKeys (dictSet ps k v) ↔ k' ∈ dictKeys ps ∨ k' = k := by
  induction ps with
  | nil => simp [dictSet, dictKeys]
  | cons p rest ih =>
      obtain ⟨k0, v0⟩ := p
      by_cases h : k0 = k
      · subst h
        simp [dictSet, dictKeys]
        tauto
      · simp only [dictSet, beq_iff_eq, if_neg h, dictKeys, List.map_cons,
          List.mem_cons]
        rw [show dictKeys (dictSet rest k v) = List.map Prod.fst (dictSet rest k v) from rfl] at ih
        rw [show dictKeys rest = List.map Prod.fst rest from rfl] at ih
        tauto

theorem mem_dictKeys_dictUpdate (ps other : PyDict) (k : String) :
    k ∈ dictKeys (dictUpdate ps other) ↔ k ∈ dictKeys ps ∨ k ∈ dictKeys other := by
  induction other generalizing ps with
  | nil => simp [dictUpdate, dictKeys]
  | cons p rest ih =>
      obtain ⟨k0, v0⟩ := p
      simp only [dictUpdate]
      rw [ih]
      rw [show dictKeys (dictSet ps k0 v0) = List.map Prod.fst (dictSet ps k0 v0) from rfl]
      rw [show (k ∈ List.map Prod.fst (dictSet ps k0 v0)) ↔ (k ∈ dictKeys (dictSet ps k0 v0)) from Iff.rfl]
      rw [mem_dictKeys_dictSet]
      simp [dictKeys]
      tauto

/-! ### C2: the doctypes allow-list, and the missing comma -/

/-- C2: `_validate_resource_type` is meant to accept every token of the
enumerated document-category set, in particular `'vorgang'` and
`'plenarprotokoll-text'`.  The source's missing comma concatenates those
two entries into `'plenarprotokoll-textvorgang'`, so the code rejects both
intended tokens with `ValueError` while accepting the merged artifact: the
claim is right about the intent and the code has a bug. -/
theorem C2_doctypes_missing_comma_bug :
    (DIP.mk "key" "json").validate_resource_type "vorgang" =
        .error (.valueError "vorgang")
    ∧ (DIP.mk "key" "json").validate_resource_type "plenarprotokoll-text" =
        .error (.valueError "plenarprotokoll-text")
    ∧ (DIP.mk "key" "json").validate_resource_type "plenarprotokoll-textvorgang" =
        .ok ()
    ∧ (DIP.mk "key" "json").validate_resource_type "person" = .ok ()
    ∧ "vorgang" ∉ DIP.doctypes
    ∧ "plenarprotokoll-text" ∉ DIP.doctypes
    ∧ "plenarprotokoll-textvorgang" ∈ DIP.doctypes := by
  refine ⟨rfl, rfl, rfl, rfl, ?_, ?_, ?_⟩ <;> decide

/-! ### C1: get_resource_all and the missing argument on line 104 -/

/-- A first response a server could give: a page of documents and a fresh
cursor, as a JSON object. -/
def firstPageBody : PyVal :=
  .dict [("documents", .list [.dict [("id", .str "1")]]), ("cursor", .str "abc")]

/-- A transport that answers every request with HTTP 200 and
`firstPageBody`. -/
def firstPageTransport : Transport :=
  fun _ => .response 200 (.jsonBody firstPageBody)

/-- C1: `get_resource_all` is meant to paginate like
`get_resource_multiple` and yield the first page when the first response
decodes and carries a fresh cursor.  Line 104 reads
`cursor = self._extract_cursor()` — the `response` argument is missing —
so after the first successful fetch the call raises `TypeError` and no
page is ever yielded: the claim is right about the intent and the code has
a bug. -/
theorem C1_get_resource_all_typeerror_bug :
    (DIP.mk "key" "json").get_resource_all firstPageTransport "person" 5 =
      ⟨[], .errored .typeError,
       [⟨"https://search.dip.bundestag.de/api/v1/person",
         [("format", .str "json"), ("apikey", .str "key")], 5⟩]⟩
    ∧ (DIP.mk "key" "json").extract_cursor (.json firstPageBody) =
        .ok (.str "abc")
    ∧ ((dictGet [("format", PyVal.str "json"), ("apikey", PyVal.str "key")]
          "cursor") == PyVal.str "abc") = false := by
  exact ⟨rfl, rfl, rfl⟩

/-! ### C3: the cursor-comparison step of get_resource_multiple -/

/-- C3: one iteration of the `get_resource_multiple` pagination loop, for a
response that fetches and yields a cursor.  If the newly-extracted cursor
equals `params.get('cursor')`, the loop breaks: that response's page is not
yielded and no further request is made.  If it differs, the outgoing
`cursor` parameter is set to the new value and the page is yielded before
the loop continues with the updated params.  In particular, once two
consecutive fetches extract the same cursor, the run ends with no further
pages. -/
theorem C3_multiple_loop_cursor_step (d : DIP) (t : Transport) (url : String)
    (params : PyDict) (fuel : Nat) (r : Decoded) (c : PyVal)
    (hr : d.handle_response (t ⟨url, params, 5⟩) = .ok r)
    (hc : d.extract_cursor r = .ok c) :
    (((dictGet params "cursor") == c) = true →
        d.multiple_loop t url (fuel + 1) params =
          ⟨[], .terminated, [⟨url, params, 5⟩]⟩)
    ∧ (((dictGet params "cursor") == c) = false →
        ∀ p, d.extract_documents r = .ok p →
          d.multiple_loop t url (fuel + 1) params =
            ⟨p :: (d.multiple_loop t url fuel (dictSet params "cursor" c)).pages,
             (d.multiple_loop t url fuel (dictSet params "cursor" c)).ending,
             ⟨url, params, 5⟩ ::
               (d.multiple_loop t url fuel (dictSet params "cursor" c)).trace⟩) := by
  constructor
  · intro heq
    simp only [DIP.multiple_loop, hr, hc, heq, if_true]
  · intro hne p hp
    simp only [DIP.multiple_loop, hr, hc, hne, hp, Bool.false_eq_true, if_false]

/-- Witness for C3: a client, transport and parameter dict on which both
branches of the step theorem fire with everything evaluated. -/
theorem C3_multiple_loop_cursor_step_witness :
    ((DIP.mk "key" "json").multiple_loop firstPageTransport "u" 3
        [("cursor", .str "abc")] = ⟨[], .terminated, [⟨"u", [("cursor", .str "abc")], 5⟩]⟩)
    ∧ ((DIP.mk "key" "json").multiple_loop firstPageTransport "u" 3 [] =
        ⟨.jsonP (.list [.dict [("id", .str "1")]]) ::
           ((DIP.mk "key" "json").multiple_loop firstPageTransport "u" 2
             (dictSet [] "cursor" (.str "abc"))).pages,
         ((DIP.mk "key" "json").multiple_loop firstPageTransport "u" 2
             (dictSet [] "cursor" (.str "abc"))).ending,
         ⟨"u", [], 5⟩ ::
           ((DIP.mk "key" "json").multiple_loop firstPageTransport "u" 2
             (dictSet [] "cursor" (.str "abc"))).trace⟩) := by
  constructor
  · exact (C3_multiple_loop_cursor_step (DIP.mk "key" "json") firstPageTransport
      "u" [("cursor", .str "abc")] 2 (.json firstPageBody) (.str "abc") rfl rfl).1 rfl
  · exact (C3_multiple_loop_cursor_step (DIP.mk "key" "json") firstPageTransport
      "u" [] 2 (.json firstPageBody) (.str "abc") rfl rfl).2 rfl
      (.jsonP (.list [.dict [("id", .str "1")]])) rfl

/-! ### C4: the asymmetry of _extract_cursor across formats -/

/-- A markup-mode response tree with `document` children but no `cursor`
child. -/
def xmlNoCursor : XmlElem :=
  .mk "root" [] Option.none [.mk "document" [] Option.none []]

/-- C4 counterexample: in markup (xml) mode, on a response tree with no
`cursor` child, `_extract_cursor` fails — but with `AttributeError`
(`find` returns `None` and `None.text` is an attribute access on `None`),
not with a `LookupError` as the claim states. -/
theorem C4_not_lookup_error :
    (DIP.mk "key" "xml").extract_cursor (.xml xmlNoCursor) =
        .error .attributeError
    ∧ (DIP.mk "key" "xml").extract_cursor (.xml xmlNoCursor) ≠
        .error .lookupError := by
  refine ⟨rfl, fun h => ?_⟩
  exact PyErr.noConfusion (Except.error.inj h)

/-- C4 (amended): `_extract_cursor` is asymmetric across formats.  In
structured (json) mode it returns the value of the `cursor` field and
returns `None` with no error when the field is absent; in markup (xml)
mode it fails with an `AttributeError` (not a `LookupError`) when no
`cursor` child element is present, and otherwise returns the child's text
content. -/
theorem C4_extract_cursor_asymmetric (d : DIP) (fs : List (String × PyVal))
    (e e' : XmlElem) (c : XmlElem) (s : String)
    (hk : "cursor" ∉ dictKeys fs)
    (hf : e.find "cursor" = Option.none)
    (hf' : e'.find "cursor" = Option.some c) (ht : c.text = Option.some s) :
    (d.fformat = "json" →
        d.extract_cursor (.json (.dict fs)) = .ok .none)
    ∧ (d.fformat = "xml" →
        d.extract_cursor (.xml e) = .error .attributeError
        ∧ d.extract_cursor (.xml e') = .ok (.str s)) := by
  constructor
  · intro hj
    have hget : d.extract_cursor (.json (.dict fs)) = .ok (dictGet fs "cursor") := by
      simp only [DIP.extract_cursor, hj]
      rfl
    rw [hget, dictGet_eq_none_of_not_mem fs "cursor" hk]
  · intro hx
    have hne : (d.fformat == "json") = false := by
      rw [hx]; rfl
    constructor
    · simp only [DIP.extract_cursor, hne, Bool.false_eq_true, if_false, hf]
    · simp only [DIP.extract_cursor, hne, Bool.false_eq_true, if_false, hf', ht]

/-- Witness for C4: the amended theorem applied to a json client on an
object without a `cursor` field and an xml client on trees without and
with a `cursor` child. -/
theorem C4_extract_cursor_asymmetric_witness :
    ((DIP.mk "key" "json").extract_cursor
        (.json (.dict [("documents", .list [])])) = .ok .none)
    ∧ ((DIP.mk "key" "xml").extract_cursor (.xml xmlNoCursor) =
        .error .attributeError
       ∧ (DIP.mk "key" "xml").extract_cursor
           (.xml (.mk "root" [] Option.none
             [.mk "cursor" [] (Option.some "X") []])) = .ok (.str "X")) := by
  constructor
  · exact (C4_extract_cursor_asymmetric (DIP.mk "key" "json")
      [("documents", .list [])] xmlNoCursor
      (.mk "root" [] Option.none [.mk "cursor" [] (Option.some "X") []])
      (.mk "cursor" [] (Option.some "X") []) "X"
      (by decide) rfl rfl rfl).1 rfl
  · exact (C4_extract_cursor_asymmetric (DIP.mk "key" "xml")
      [("documents", .list [])] xmlNoCursor
      (.mk "root" [] Option.none [.mk "cursor" [] (Option.some "X") []])
      (.mk "cursor" [] (Option.some "X") []) "X"
      (by decide) rfl rfl rfl).2 rfl

/-! ### C5: validation failures precede any network call -/

/-- C5: for each of the three get operations, when the arguments fail
validation the `ValueError` is raised and the run's request trace is
empty: no HTTP request is ever issued on the validation-failure path.
For `get_resource_multiple` this holds both for an invalid resource type
and for a valid resource type with an invalid parameter name. -/
theorem C5_validation_failure_no_request (d : DIP) (t : Transport)
    (rt dpi_id : String) (ps : PyDict) (fuel : Nat) :
    (∀ e, d.validate_resource_type rt = .error e →
        d.get_resource_all t rt fuel = ⟨[], .errored e, []⟩
        ∧ (d.get_resource_id t rt dpi_id).result = .error e
        ∧ (d.get_resource_id t rt dpi_id).trace = []
        ∧ d.get_resource_multiple t rt ps fuel = ⟨[], .errored e, []⟩)
    ∧ (∀ e, d.validate_resource_type rt = .ok () →
        d.validate_parameter_types ps = .error e →
        d.get_resource_multiple t rt ps fuel = ⟨[], .errored e, []⟩) := by
  constructor
  · intro e he
    refine ⟨?_, ?_, ?_, ?_⟩ <;>
      simp only [DIP.get_resource_all, DIP.get_resource_id,
        DIP.get_resource_multiple, he]
  · intro e hok hbad
    simp only [DIP.get_resource_multiple, hok, hbad]

/-- Witness for C5: an invalid resource type (`'vorgang'`, rejected by the
code) issues no request through any operation, and a bad parameter name
issues none through `get_resource_multiple`. -/
theorem C5_validation_failure_no_request_witness :
    ((DIP.mk "key" "json").get_resource_all firstPageTransport "vorgang" 5 =
        ⟨[], .errored (.valueError "vorgang"), []⟩
      ∧ ((DIP.mk "key" "json").get_resource_id firstPageTransport "vorgang"
          "1").result = .error (.valueError "vorgang")
      ∧ ((DIP.mk "key" "json").get_resource_id firstPageTransport "vorgang"
          "1").trace = []
      ∧ (DIP.mk "key" "json").get_resource_multiple firstPageTransport
          "vorgang" [("bogus", .str "x")] 5 =
          ⟨[], .errored (.valueError "vorgang"), []⟩)
    ∧ (DIP.mk "key" "json").get_resource_multiple firstPageTransport
        "person" [("bogus", .str "x")] 5 =
        ⟨[], .errored (.valueError "bogus"), []⟩ := by
  constructor
  · exact (C5_validation_failure_no_request (DIP.mk "key" "json")
      firstPageTransport "vorgang" "1" [("bogus", .str "x")] 5).1
      (.valueError "vorgang") rfl
  · exact (C5_validation_failure_no_request (DIP.mk "key" "json")
      firstPageTransport "person" "1" [("bogus", .str "x")] 5).2
      (.valueError "bogus") rfl rfl

/-! ### C6: get_resource_id is single-shot -/

/-- C6: with a valid resource type, `get_resource_id` issues exactly one
HTTP request, to `base_url/{res_type}/{dpi_id}` with the `format` and
`apikey` parameters and the 5-second timeout, and returns the decoded
response of that single request directly — no loop, no pages. -/
theorem C6_get_resource_id_single_request (d : DIP) (t : Transport)
    (rt dpi_id : String) (h : d.validate_resource_type rt = .ok ()) :
    (d.get_resource_id t rt dpi_id).trace =
      [⟨DIP.base_url ++ "/" ++ rt ++ "/" ++ dpi_id,
        [("format", .str d.fformat), ("apikey", .str d.apikey)], 5⟩]
    ∧ (d.get_resource_id t rt dpi_id).result =
        d.handle_response (t ⟨DIP.base_url ++ "/" ++ rt ++ "/" ++ dpi_id,
          [("format", .str d.fformat), ("apikey", .str d.apikey)], 5⟩) := by
  simp only [DIP.get_resource_id, h]
  exact ⟨rfl, rfl⟩

/-- Witness for C6: `getById('person', '12345')` issues the one request to
`.../person/12345` and returns its decoded body. -/
theorem C6_get_resource_id_single_request_witness :
    ((DIP.mk "key" "json").get_resource_id firstPageTransport "person"
        "12345").trace =
      [⟨"https://search.dip.bundestag.de/api/v1/person/12345",
        [("format", .str "json"), ("apikey", .str "key")], 5⟩]
    ∧ ((DIP.mk "key" "json").get_resource_id firstPageTransport "person"
        "12345").result =
        (DIP.mk "key" "json").handle_response
          (firstPageTransport
            ⟨"https://search.dip.bundestag.de/api/v1/person/12345",
             [("format", .str "json"), ("apikey", .str "key")], 5⟩) :=
  C6_get_resource_id_single_request (DIP.mk "key" "json") firstPageTransport
    "person" "12345" rfl

/-! ### C7: validate_parameter_types -/

/-- The first step of `validate_parameter_types` on an allow-listed key. -/
theorem validate_parameter_types_cons_ok (d : DIP) (k0 : String) (v0 : PyVal)
    (rest : PyDict) (h : k0 ∈ DIP.parameters) :
    d.validate_parameter_types ((k0, v0) :: rest) =
      d.validate_parameter_types rest := by
  simp only [DIP.validate_parameter_types, if_pos h]

/-- The first step of `validate_parameter_types` on a key outside the
allow-list. -/
theorem validate_parameter_types_cons_bad (d : DIP) (k0 : String) (v0 : PyVal)
    (rest : PyDict) (h : k0 ∉ DIP.parameters) :
    d.validate_parameter_types ((k0, v0) :: rest) =
      .error (.valueError k0) := by
  simp only [DIP.validate_parameter_types, if_neg h]

/-- C7: `_validate_parameter_types` succeeds exactly when every key of the
given parameter map is in the fixed `parameters` allow-list; when it fails,
the error is a `ValueError` naming a key of the map that is outside the
allow-list.  The function receives no resource type, so no applicability
check can or does happen. -/
theorem C7_validate_parameter_types_characterisation (d : DIP) (ps : PyDict) :
    (d.validate_parameter_types ps = .ok () ↔
      ∀ k ∈ dictKeys ps, k ∈ DIP.parameters)
    ∧ (∀ e, d.validate_parameter_types ps = .error e →
        ∃ k, k ∈ dictKeys ps ∧ k ∉ DIP.parameters ∧ e = .valueError k) := by
  induction ps with
  | nil =>
      exact ⟨⟨fun _ => by simp [dictKeys], fun _ => rfl⟩,
        fun e he => Except.noConfusion he⟩
  | cons p rest ih =>
      obtain ⟨k0, v0⟩ := p
      by_cases h : k0 ∈ DIP.parameters
      · refine ⟨?_, ?_⟩
        · rw [validate_parameter_types_cons_ok d k0 v0 rest h, ih.1]
          simp only [dictKeys, List.map_cons, List.mem_cons]
          constructor
          · rintro hall k (rfl | hk)
            · exact h
            · exact hall k hk
          · exact fun hall k hk => hall k (Or.inr hk)
        · intro e he
          rw [validate_parameter_types_cons_ok d k0 v0 rest h] at he
          obtain ⟨k, hk, hnk, hek⟩ := ih.2 e he
          exact ⟨k, List.mem_cons_of_mem (k0, v0).fst hk, hnk, hek⟩
      · refine ⟨?_, ?_⟩
        · rw [validate_parameter_types_cons_bad d k0 v0 rest h]
          constructor
          · intro he; exact Except.noConfusion he
          · intro hall
            exact absurd (hall k0 (by simp [dictKeys])) h
        · intro e he
          rw [validate_parameter_types_cons_bad d k0 v0 rest h] at he
          exact ⟨k0, by simp [dictKeys], h, (Except.error.inj he).symm⟩

/-- Witness for C7: a map of allow-listed keys passes and a map with a key
outside the allow-list is rejected with a `ValueError` naming it. -/
theorem C7_validate_parameter_types_witness :
    ((DIP.mk "key" "json").validate_parameter_types
        [("f.id", .list [.str "258442", .str "84394"]), ("cursor", .str "c")] =
        .ok ())
    ∧ (∃ k, k ∈ dictKeys [("f.bogus", PyVal.str "x")] ∧ k ∉ DIP.parameters
        ∧ PyErr.valueError "f.bogus" = .valueError k) := by
  constructor
  · exact (C7_validate_parameter_types_characterisation (DIP.mk "key" "json")
      [("f.id", .list [.str "258442", .str "84394"]), ("cursor", .str "c")]).1.mpr
      (by decide)
  · exact (C7_validate_parameter_types_characterisation (DIP.mk "key" "json")
      [("f.bogus", PyVal.str "x")]).2 (.valueError "f.bogus") rfl

/-! ### C8: _get_and_handle_response -/

/-- C8: `_get_and_handle_response` issues a single HTTP GET carrying the
fixed 5-second timeout; it fails with a `requests` exception
(`TransportError`) when the transport reports a network failure or the
response's status is an HTTP error status (`raise_for_status` raises for
`400 ≤ status < 600`); on a success status it decodes the body per the
configured format — a structured object in json mode, an element tree in
markup mode — and fails with a decode error on a body the active parser
rejects. -/
theorem C8_get_and_handle_response_characterisation (d : DIP) (t : Transport)
    (url : String) (params : PyDict) :
    ((d.get_and_handle_response t url params).2 = ⟨url, params, 5⟩)
    ∧ (t ⟨url, params, 5⟩ = .netFail →
        (d.get_and_handle_response t url params).1 = .error .requestException)
    ∧ (∀ status body, t ⟨url, params, 5⟩ = .response status body →
        (400 ≤ status ∧ status < 600 →
          (d.get_and_handle_response t url params).1 =
            .error .requestException)
        ∧ (¬(400 ≤ status ∧ status < 600) →
            (d.fformat = "json" →
              (∀ v, body = .jsonBody v →
                (d.get_and_handle_response t url params).1 = .ok (.json v))
              ∧ (∀ e, body = .xmlBody e →
                (d.get_and_handle_response t url params).1 =
                  .error .decodeError)
              ∧ (body = .malformed →
                (d.get_and_handle_response t url params).1 =
                  .error .decodeError))
            ∧ (d.fformat = "xml" →
              (∀ e, body = .xmlBody e →
                (d.get_and_handle_response t url params).1 = .ok (.xml e))
              ∧ (∀ v, body = .jsonBody v →
                (d.get_and_handle_response t url params).1 =
                  .error .decodeError)
              ∧ (body = .malformed →
                (d.get_and_handle_response t url params).1 =
                  .error .decodeError)))) := by
  refine ⟨rfl, ?_, ?_⟩
  · intro hnf
    simp only [DIP.get_and_handle_response, DIP.handle_response, hnf]
  · intro status body hresp
    constructor
    · intro hbad
      simp only [DIP.get_and_handle_response, DIP.handle_response, hresp,
        if_pos hbad]
    · intro hgood
      constructor
      · intro hj
        refine ⟨fun v hv => ?_, fun e he => ?_, fun hm => ?_⟩
        · simp only [DIP.get_and_handle_response, DIP.handle_response, hresp,
            if_neg hgood, hj, hv]
          rfl
        · simp only [DIP.get_and_handle_response, DIP.handle_response, hresp,
            if_neg hgood, hj, he]
          rfl
        · simp only [DIP.get_and_handle_response, DIP.handle_response, hresp,
            if_neg hgood, hj, hm]
          rfl
      · intro hx'
        have hne : (d.fformat == "json") = false := by rw [hx']; rfl
        refine ⟨fun e he => ?_, fun v hv => ?_, fun hm => ?_⟩
        · simp only [DIP.get_and_handle_response, DIP.handle_response, hresp,
            if_neg hgood, hne, Bool.false_eq_true, if_false, he]
        · simp only [DIP.get_and_handle_response, DIP.handle_response, hresp,
            if_neg hgood, hne, Bool.false_eq_true, if_false, hv]
        · simp only [DIP.get_and_handle_response, DIP.handle_response, hresp,
            if_neg hgood, hne, Bool.false_eq_true, if_false, hm]

/-- Witness for C8: a 404 response becomes a `requests` exception, and a
200 response with a JSON object body decodes in json mode. -/
theorem C8_get_and_handle_response_witness :
    (((DIP.mk "key" "json").get_and_handle_response
        (fun _ => .response 404 .malformed) "u" []).1 =
        .error .requestException)
    ∧ (((DIP.mk "key" "json").get_and_handle_response firstPageTransport
        "u" []).1 = .ok (.json firstPageBody)) := by
  constructor
  · exact (((C8_get_and_handle_response_characterisation (DIP.mk "key" "json")
      (fun _ => .response 404 .malformed) "u" []).2.2 404 .malformed rfl).1
      (by omega))
  · exact ((((C8_get_and_handle_response_characterisation (DIP.mk "key" "json")
      firstPageTransport "u" []).2.2 200 (.jsonBody firstPageBody) rfl).2
      (by omega)).1 rfl).1 firstPageBody rfl

/-! ### C9: the client configuration is immutable -/

/-- A call to one of the client's methods, with its arguments. -/
inductive Op where
  | validateResource (rt : String)
  | validateParams (ps : PyDict)
  | extractDocuments (r : Decoded)
  | extractCursor (r : Decoded)
  | fetchPage (t : Transport) (url : String) (params : PyDict)
  | getAll (t : Transport) (rt : String) (fuel : Nat)
  | getById (t : Transport) (rt dpi_id : String)
  | getMultiple (t : Transport) (rt : String) (ps : PyDict) (fuel : Nat)

/-- What one method call returns (or raises). -/
inductive OpResult where
  | unit (r : Except PyErr Unit)
  | page (r : Except PyErr Page)
  | cursor (r : Except PyErr PyVal)
  | fetched (r : Except PyErr Decoded × Request)
  | run (r : RunOut)
  | single (r : IdOut)

/-- Method-call semantics of the client with the post-state made explicit:
a Python method could reassign `self.apikey` or `self.fformat`, so the
post-call `self` is returned alongside the result.  No method body of
`DIP` contains an attribute assignment (only `__init__` does), so each
call returns `self` unchanged. -/
def DIP.step (d : DIP) : Op → DIP × OpResult
  | .validateResource rt => (d, .unit (d.validate_resource_type rt))
  | .validateParams ps => (d, .unit (d.validate_parameter_types ps))
  | .extractDocuments r => (d, .page (d.extract_documents r))
  | .extractCursor r => (d, .cursor (d.extract_cursor r))
  | .fetchPage t url params => (d, .fetched (d.get_and_handle_response t url params))
  | .getAll t rt fuel => (d, .run (d.get_resource_all t rt fuel))
  | .getById t rt dpi_id => (d, .single (d.get_resource_id t rt dpi_id))
  | .getMultiple t rt ps fuel => (d, .run (d.get_resource_multiple t rt ps fuel))

/-- C9: every operation of the client — validation, extraction, fetching,
and the three get operations, whether they succeed or fail — leaves the
client state, in particular its `apikey` and `fformat` fields,
unchanged. -/
theorem C9_configuration_immutable (d : DIP) (op : Op) :
    (d.step op).1 = d
    ∧ (d.step op).1.apikey = d.apikey
    ∧ (d.step op).1.fformat = d.fformat := by
  cases op <;> exact ⟨rfl, rfl, rfl⟩

/-! ### C10: a first json response without a cursor field yields nothing -/

/-- C10: in json mode, when the caller passes no `cursor` parameter and the
server's first response is a well-formed JSON object with no `cursor`
field, `get_resource_multiple` extracts `None`, which equals the unset
outgoing cursor, so the loop breaks at once: zero pages, no error, one
request — even when that response carries a non-empty `documents` list,
which is silently dropped. -/
theorem C10_missing_cursor_drops_first_page (d : DIP) (t : Transport)
    (rt : String) (ps : PyDict) (fuel : Nat) (fs : List (String × PyVal))
    (docs : List PyVal)
    (hfmt : d.fformat = "json")
    (hvr : d.validate_resource_type rt = .ok ())
    (hvp : d.validate_parameter_types ps = .ok ())
    (hnc : "cursor" ∉ dictKeys ps)
    (hresp : t ⟨DIP.base_url ++ "/" ++ rt,
        dictUpdate [("format", .str d.fformat), ("apikey", .str d.apikey)] ps,
        5⟩ = .response 200 (.jsonBody (.dict fs)))
    (hcursor : "cursor" ∉ dictKeys fs)
    (_hdocs : dictGet fs "documents" = .list docs) (_hne : docs ≠ []) :
    d.get_resource_multiple t rt ps (fuel + 1) =
      ⟨[], .terminated,
       [⟨DIP.base_url ++ "/" ++ rt,
         dictUpdate [("format", .str d.fformat), ("apikey", .str d.apikey)] ps,
         5⟩]⟩ := by
  have hkeys : "cursor" ∉ dictKeys
      (dictUpdate [("format", PyVal.str d.fformat), ("apikey", PyVal.str d.apikey)] ps) := by
    rw [mem_dictKeys_dictUpdate]
    rintro (habs | habs)
    · simp [dictKeys] at habs
    · exact hnc habs
  have hparams : dictGet
      (dictUpdate [("format", PyVal.str d.fformat), ("apikey", PyVal.str d.apikey)] ps)
      "cursor" = .none :=
    dictGet_eq_none_of_not_mem _ _ hkeys
  have hdecode : d.handle_response
      (t ⟨DIP.base_url ++ "/" ++ rt,
        dictUpdate [("format", .str d.fformat), ("apikey", .str d.apikey)] ps,
        5⟩) = .ok (.json (.dict fs)) := by
    rw [hresp]
    simp only [DIP.handle_response, hfmt]
    rw [if_neg (by omega)]
    rfl
  have hcur : d.extract_cursor (.json (.dict fs)) = .ok .none := by
    simp only [DIP.extract_cursor, hfmt]
    rw [dictGet_eq_none_of_not_mem fs "cursor" hcursor]
    rfl
  simp only [DIP.get_resource_multiple, hvr, hvp]
  simp only [DIP.multiple_loop, hdecode, hcur, hparams]
  rfl

/-- Witness for C10: a concrete json client, a first response
`{"documents": [{"id": 1}]}` with no cursor field, and a caller-supplied
parameter map without a cursor: the run terminates with zero pages after
one request. -/
theorem C10_missing_cursor_drops_first_page_witness :
    (DIP.mk "key" "json").get_resource_multiple
      (fun _ => .response 200 (.jsonBody
        (.dict [("documents", .list [.dict [("id", .int 1)]])])))
      "person" [("f.id", .str "7")] 4 =
      ⟨[], .terminated,
       [⟨"https://search.dip.bundestag.de/api/v1/person",
         dictUpdate [("format", .str "json"), ("apikey", .str "key")]
           [("f.id", .str "7")], 5⟩]⟩ :=
  C10_missing_cursor_drops_first_page (DIP.mk "key" "json")
    (fun _ => .response 200 (.jsonBody
      (.dict [("documents", .list [.dict [("id", .int 1)]])])))
    "person" [("f.id", .str "7")] 3
    [("documents", .list [.dict [("id", .int 1)]])]
    [.dict [("id", .int 1)]]
    rfl rfl rfl (by decide) rfl (by decide) rfl (by simp)
